import Mathlib

/-!
Verification of the data-view repository's URL/query-state layer and
incremental fetch engine, shallowly embedded in Lean.

Part 1 — URL state store (`src/unnamed/part_003`, hook `useDataViewUrlState`):
parameter lookup with namespace prefixes, JS-style integer parsing for
`page`/`limit`, filter parsing with `defaultValue` fallback, and `updateUrl`
with its page-reset policy.
-/

set_option autoImplicit false

namespace DataView

/-- URL search parameters, modelled as an ordered list of key/value pairs
(the order and multiplicity of `URLSearchParams`). -/
abbrev Params : Type := List (String × String)

/-- Lookup mirroring `URLSearchParams.get`: first value for the key, or null. -/
def getParamRaw (params : Params) (key : String) : Option String :=
  (params.find? (fun kv => kv.1 = key)).map (fun kv => kv.2)

/-- Embeds `URLSearchParams.delete`: removes every pair with the given key. -/
def paramsDelete (params : Params) (key : String) : Params :=
  params.filter (fun kv => kv.1 ≠ key)

/-- Embeds `URLSearchParams.set`: replace the first pair carrying the key in
place, drop later ones, or append when the key is absent. -/
def paramsSet : Params → String → String → Params
  | [], key, value => [(key, value)]
  | kv :: rest, key, value =>
    if kv.1 = key then (key, value) :: paramsDelete rest key
    else kv :: paramsSet rest key value

/-- Embeds `URLSearchParams.has`. -/
def paramsHas (params : Params) (key : String) : Bool :=
  params.any (fun kv => kv.1 = key)

/-- Embeds `getParamKey` (part_003 lines 129-134): prefix the key with
`urlNamespace` and an underscore when the namespace is non-empty. -/
def getParamKey (urlNamespace : String) (key : String) : String :=
  if urlNamespace ≠ "" then urlNamespace ++ "_" ++ key else key

/-- Embeds `getParam` (part_003 lines 139-144). -/
def getParam (params : Params) (urlNamespace : String) (key : String) : Option String :=
  getParamRaw params (getParamKey urlNamespace key)

/-- Fold a digit run into a natural number. -/
def digitsToNat (cs : List Char) : Nat :=
  cs.foldl (fun n c => n * 10 + (c.toNat - ('0').toNat)) 0

/-- Embeds JavaScript `parseInt(s, 10)`: skip leading whitespace, an optional
sign, then a maximal run of decimal digits; `none` models `NaN` (no digits). -/
def parseIntJS (s : String) : Option Int :=
  let cs := s.toList.dropWhile (fun c => c.isWhitespace)
  let signAndRest : Int × List Char :=
    match cs with
    | '-' :: r => (-1, r)
    | '+' :: r => (1, r)
    | r => (1, r)
  let digits := signAndRest.2.takeWhile (fun c => c.isDigit)
  if digits.isEmpty then none
  else some (signAndRest.1 * (digitsToNat digits : Int))

/-- Embeds the `currentPage` parse (part_003 lines 175-178):
`pageParam ? Math.max(1, parseInt(pageParam, 10) || DEFAULT_PAGE) : DEFAULT_PAGE`.
A `some ""` parameter is falsy in JS, as is a parse result of `0`;
`none` models a missing parameter. `DEFAULT_PAGE = 1`. -/
def currentPageFromParam (pageParam : Option String) : Int :=
  match pageParam with
  | none => 1
  | some s =>
    if s = "" then 1
    else
      let n : Int :=
        match parseIntJS s with
        | none => 1
        | some v => if v = 0 then 1 else v
      max 1 n

/-- Embeds the `currentLimit` parse (part_003 lines 181-184):
`limitParam ? parseInt(limitParam, 10) || defaultLimit : defaultLimit`. -/
def currentLimitFromParam (limitParam : Option String) (defaultLimit : Int) : Int :=
  match limitParam with
  | none => defaultLimit
  | some s =>
    if s = "" then defaultLimit
    else
      match parseIntJS s with
      | none => defaultLimit
      | some v => if v = 0 then defaultLimit else v

/-- Filter group configuration; only the fields the URL layer reads are kept
(`label`, `mode`, `options`, `searchable` are presentational and unused by
`useDataViewUrlState`'s filter parsing). -/
structure FilterGroup where
  id : String
  defaultValue : Option (List String)
  deriving DecidableEq, Repr

/-- Embeds `paramValue.split(',').filter(Boolean)` (part_003 line 161). -/
def splitFilterParam (v : String) : List String :=
  (v.splitOn ",").filter (fun seg => seg ≠ "")

/-- Entry contributed by one filter group (part_003 lines 158-165): a truthy
parameter (present and non-empty) is comma-split with empty segments dropped;
otherwise a configured `defaultValue` is used verbatim; otherwise nothing. -/
def groupEntry (params : Params) (urlNamespace : String) (filter : FilterGroup) :
    Option (String × List String) :=
  match getParamRaw params (getParamKey urlNamespace filter.id) with
  | some v =>
    if v ≠ "" then some (filter.id, splitFilterParam v)
    else filter.defaultValue.map (fun dv => (filter.id, dv))
  | none => filter.defaultValue.map (fun dv => (filter.id, dv))

/-- JS object assignment `result[key] = value`: replace in place, else append. -/
def recordSet (result : List (String × List String)) (key : String) (value : List String) :
    List (String × List String) :=
  if result.any (fun kv => kv.1 = key) then
    result.map (fun kv => if kv.1 = key then (key, value) else kv)
  else
    result ++ [(key, value)]

/-- Embeds the `currentFilters` memo (part_003 lines 154-169): fold the filter
groups, assigning each group's entry (if any) into a record. -/
def currentFilters (filters : Option (List FilterGroup)) (params : Params)
    (urlNamespace : String) : List (String × List String) :=
  match filters with
  | none => []
  | some fs =>
    fs.foldl
      (fun result filter =>
        match groupEntry params urlNamespace filter with
        | some e => recordSet result e.1 e.2
        | none => result)
      []

/-- JavaScript values accepted by `updateUrl`'s `updates` record:
`string | number | null` (`undefined` behaves as `null` there). -/
inductive JSValue where
  | str : String → JSValue
  | num : Int → JSValue
  | null : JSValue
  deriving DecidableEq, Repr

/-- The `value === null || value === '' || value === undefined` test
(part_003 line 231) that selects deletion over assignment. -/
def jsValueDeletes : JSValue → Bool
  | .str s => s = ""
  | .num _ => false
  | .null => true

/-- Embeds `String(value)` for the values that are assigned (never `null`). -/
def jsValueToString : JSValue → String
  | .str s => s
  | .num n => toString n
  | .null => "null"

/-- Embeds `updateUrl` (part_003 lines 223-257): apply every update (deleting
on null/empty), then — when `resetPage` is not explicitly disabled, the
`resetPageOnChange` policy applies, and the change set lacks the key `page` —
delete the (namespaced) page parameter. Returns the resulting parameter set
(the `router.replace` navigation carries exactly this). -/
def updateUrl (searchParams : Params) (urlNamespace : String)
    (resetPageOnChange : Bool) (updates : List (String × JSValue))
    (optResetPage : Option Bool) : Params :=
  let shouldResetPage := optResetPage.getD resetPageOnChange
  let params :=
    updates.foldl
      (fun params kv =>
        let paramKey := getParamKey urlNamespace kv.1
        if jsValueDeletes kv.2 then paramsDelete params paramKey
        else paramsSet params paramKey (jsValueToString kv.2))
      searchParams
  if shouldResetPage ∧ ¬ updates.any (fun kv => kv.1 = "page") then
    let pageKey := getParamKey urlNamespace "page"
    if paramsHas params pageKey then paramsDelete params pageKey else params
  else params

/-- Embeds `handlePageChange` (part_003 lines 300-305): write `page` (or drop
it when ≤ 1) with the page-reset policy explicitly disabled. -/
def handlePageChange (searchParams : Params) (urlNamespace : String)
    (resetPageOnChange : Bool) (page : Int) : Params :=
  updateUrl searchParams urlNamespace resetPageOnChange
    [("page", if page > 1 then JSValue.num page else JSValue.null)] (some false)

/-!
Part 2 — query compiler and fetch engine
(`src/hooks/use-data-view-infinite-query.ts`).
-/

/-- Chained backend query, abstracted to the shape the search compiler emits:
`ilike q col pattern` is the case-insensitive partial-match call
`q.ilike(col, pattern)`, and `orFilter q conds` is `q.or(conds)` over a
comma-joined condition string. -/
inductive Query where
  | base : Query
  | ilike : Query → String → String → Query
  | orFilter : Query → String → Query
  deriving DecidableEq, Repr

/-- JavaScript `String.prototype.trim`, computed on the character list
(whitespace on both ends removed). -/
def trimJS (s : String) : String :=
  String.mk
    (((s.toList.dropWhile (fun c => c.isWhitespace)).reverse.dropWhile
        (fun c => c.isWhitespace)).reverse)

/-- Column selection of `applySearch` (line 256):
`searchColumns?.length ? searchColumns : searchColumn ? [searchColumn] : []`
(an empty `searchColumn` string is falsy in JS). -/
def targetColumns (searchColumn : Option String) (searchColumns : List String) :
    List String :=
  if searchColumns.length ≠ 0 then searchColumns
  else
    match searchColumn with
    | some c => if c ≠ "" then [c] else []
    | none => []

/-- Embeds `applySearch` (lines 246-267): no predicate on blank (trimmed)
search or no target columns; one column compiles to a single `ilike`; several
compile to `or` over per-column `ilike` conditions. -/
def applySearch (query : Query) (search : String) (searchColumn : Option String)
    (searchColumns : List String) : Query :=
  let trimmedSearch := trimJS search
  if trimmedSearch = "" then query
  else
    match targetColumns searchColumn searchColumns with
    | [] => query
    | [col] => Query.ilike query col ("%" ++ trimmedSearch ++ "%")
    | cols =>
      Query.orFilter query
        (String.intercalate ","
          (cols.map (fun col => col ++ ".ilike.%" ++ trimmedSearch ++ "%")))

/-- Embeds `StoreState` (lines 177-185); `Error` values are kept as their
message strings. -/
structure StoreState (α : Type) where
  data : List α
  count : Nat
  isSuccess : Bool
  isLoading : Bool
  isFetching : Bool
  error : Option String
  hasInitialFetch : Bool
  deriving DecidableEq, Repr

/-- Embeds `DataFetchContext` (types file): the per-request snapshot. -/
structure DataFetchContext where
  page : Nat
  pageSize : Nat
  skip : Nat
  filters : List (String × List String)
  search : String
  sort : Option String
  deriving DecidableEq, Repr

/-- Embeds `createFetchContext` (lines 307-323). -/
def createFetchContext (page pageSize skip : Nat)
    (filters : List (String × List String)) (search : String)
    (sort : Option String) : DataFetchContext :=
  { page, pageSize, skip, filters, search, sort }

/-- Embeds `InitialData` (SSR seed). -/
structure InitialData (α : Type) where
  data : List α
  count : Nat
  deriving DecidableEq, Repr

/-- The hook's `paginationMode` prop: `infinite` accumulates, `classic`
replaces per page. -/
inductive PaginationMode where
  | infinite
  | classic
  deriving DecidableEq, Repr

/-- Inputs of `createQueryKey` (lines 292-302). The three externally supplied
callbacks are modelled by identity tokens (`Option Nat`): two renders pass
the same token exactly when they pass the identical function object, and
`none` means the prop is absent. -/
structure QueryProps where
  tableName : Option String
  columns : Option String
  filters : List (String × List String)
  search : Option String
  sort : Option String
  baseQuery : Option Nat
  customFetcher : Option Nat
  onDataLoaded : Option Nat
  deriving DecidableEq, Repr

/-- The value `JSON.stringify` serializes in `createQueryKey`. Equality of the
produced strings coincides with field-wise equality here (key order is fixed,
absent optional fields are omitted, and the serialization of these field types
is injective), so the key is modelled by the structure itself. -/
structure QueryKey where
  tableName : Option String
  columns : Option String
  filters : List (String × List String)
  search : Option String
  sort : Option String
  hasCustomFetcher : Bool
  deriving DecidableEq, Repr

/-- Embeds `createQueryKey` (lines 292-302): the key covers `tableName`,
`columns`, `filters`, `search`, `sort` and `hasCustomFetcher = !!customFetcher`
— nothing else of the props. -/
def createQueryKey (props : QueryProps) : QueryKey :=
  { tableName := props.tableName
    columns := props.columns
    filters := props.filters
    search := props.search
    sort := props.sort
    hasCustomFetcher := props.customFetcher.isSome }

/-- The empty loading state of the `useState` initializer (lines 380-389). -/
def emptyLoadingState (α : Type) : StoreState α :=
  { data := []
    count := 0
    isSuccess := false
    isLoading := true
    isFetching := false
    error := none
    hasInitialFetch := false }

/-- Embeds the `useState` initializer (lines 368-390): a non-empty SSR seed
hydrates the state with `isLoading = false` and `hasInitialFetch = true`. -/
def initState {α : Type} (initialData : Option (InitialData α)) : StoreState α :=
  match initialData with
  | some i =>
    if i.data.length > 0 then
      { data := i.data
        count := i.count
        isSuccess := true
        isLoading := false
        isFetching := false
        error := none
        hasInitialFetch := true }
    else emptyLoadingState α
  | none => emptyLoadingState α

/-- Embeds `initialDataUsedRef`'s initial value (line 397):
`!!initialData?.data.length` (a length of `0` is falsy). -/
def initialDataUsed {α : Type} (initialData : Option (InitialData α)) : Bool :=
  match initialData with
  | some i => i.data.length ≠ 0
  | none => false

/-- Outcome of one invocation of the (custom or Supabase) fetcher:
a `DataFetchResult` with data and count, a result carrying a non-null
`error` field, or a thrown exception. -/
inductive FetcherOutcome (α : Type) where
  | ok (data : List α) (count : Nat)
  | errorField (msg : String)
  | throws (msg : String)
  deriving DecidableEq, Repr

/-- Outcome of one invocation of the `onDataLoaded` transform: a transformed
item list, or a rejection. -/
inductive TransformOutcome (α : Type) where
  | ok (out : List α)
  | throws (msg : String)
  deriving DecidableEq, Repr

/-- Joint resolution of `await fetcher(ctx)` followed by the optional
`await onDataLoaded(result.data, ctx)` inside `fetchPage`:
`errorResult` is the `result.error` branch (lines 506-516), `thrown` is the
`catch` branch (lines 535-544) reached by a throwing fetcher or a rejecting
transform. -/
inductive Resolution (α : Type) where
  | ok (processed : List α) (count : Nat)
  | errorResult (msg : String)
  | thrown (msg : String)
  deriving DecidableEq, Repr

/-- Resolve the fetch pipeline for one issued context. -/
def resolve {α : Type} (fetcher : DataFetchContext → FetcherOutcome α)
    (onDataLoaded : Option (List α → TransformOutcome α))
    (ctx : DataFetchContext) : Resolution α :=
  match fetcher ctx with
  | .errorField msg => .errorResult msg
  | .throws msg => .thrown msg
  | .ok data count =>
    match onDataLoaded with
    | none => .ok data count
    | some f =>
      match f data with
      | .ok out => .ok out count
      | .throws msg => .thrown msg

/-- Result of one complete run of `fetchPage`: the synchronous in-flight flag
after resolution, the store state after resolution, and the fetch context that
was handed to the fetcher (`none` when one of the guards returned early and no
request was issued). -/
structure FetchPageResult (α : Type) where
  isFetchingRef : Bool
  state : StoreState α
  issuedCtx : Option DataFetchContext
  deriving DecidableEq, Repr

/-- Embeds one complete execution of `fetchPage` (lines 467-544), from the
guards through the resolution of the awaited fetcher/transform. The execution
is modelled atomically: the engine is single-threaded and the in-flight flag
blocks re-entry for the whole span, so the state read at resolution time is
the state written at issue time. `filters`, `search`, `sort`, `currentPage`
and `paginationMode` are the render-time ref values. -/
def fetchPage {α : Type} (enabled : Bool) (isFetchingRef : Bool)
    (state : StoreState α) (paginationMode : PaginationMode)
    (currentPage pageSize : Nat) (filters : List (String × List String))
    (search : String) (sort : Option String)
    (fetcher : DataFetchContext → FetcherOutcome α)
    (onDataLoaded : Option (List α → TransformOutcome α))
    (skip : Nat) (isReset : Bool) : FetchPageResult α :=
  if ¬enabled then ⟨isFetchingRef, state, none⟩
  else if isFetchingRef then ⟨isFetchingRef, state, none⟩
  else
    let isClassicMode := paginationMode = PaginationMode.classic
    if ¬isClassicMode ∧ ¬isReset ∧ state.hasInitialFetch ∧
        state.count ≤ state.data.length then
      ⟨isFetchingRef, state, none⟩
    else
      let state1 : StoreState α :=
        { state with
            isFetching := true
            isLoading := !state.hasInitialFetch || isReset }
      let page := if isClassicMode then currentPage else skip / pageSize + 1
      let actualSkip := if isClassicMode then (currentPage - 1) * pageSize else skip
      let ctx := createFetchContext page pageSize actualSkip filters search sort
      match resolve fetcher onDataLoaded ctx with
      | .errorResult msg =>
        ⟨false,
          { state1 with error := some msg, isFetching := false, isLoading := false },
          some ctx⟩
      | .thrown msg =>
        ⟨false,
          { state1 with error := some msg, isFetching := false, isLoading := false },
          some ctx⟩
      | .ok processed count =>
        ⟨false,
          { data := if isClassicMode ∨ isReset then processed
                    else state1.data ++ processed
            count := count
            isSuccess := true
            isLoading := false
            isFetching := false
            error := none
            hasInitialFetch := true },
          some ctx⟩

/-- Embeds `fetchNextPage` (lines 555-562): no-op while in flight, when
disabled, or under classic mode; otherwise `fetchPage(data.length, false)`. -/
def fetchNextPage {α : Type} (enabled : Bool) (isFetchingRef : Bool)
    (state : StoreState α) (paginationMode : PaginationMode)
    (currentPage pageSize : Nat) (filters : List (String × List String))
    (search : String) (sort : Option String)
    (fetcher : DataFetchContext → FetcherOutcome α)
    (onDataLoaded : Option (List α → TransformOutcome α)) : FetchPageResult α :=
  if isFetchingRef ∨ ¬enabled then ⟨isFetchingRef, state, none⟩
  else if paginationMode = PaginationMode.classic then ⟨isFetchingRef, state, none⟩
  else
    fetchPage enabled isFetchingRef state paginationMode currentPage pageSize
      filters search sort fetcher onDataLoaded state.data.length false

/-- Embeds `fetchPageNumber` (lines 565-573): classic-mode only; fetches the
requested page with `isReset = true`. -/
def fetchPageNumber {α : Type} (enabled : Bool) (isFetchingRef : Bool)
    (state : StoreState α) (paginationMode : PaginationMode)
    (currentPage pageSize : Nat) (filters : List (String × List String))
    (search : String) (sort : Option String)
    (fetcher : DataFetchContext → FetcherOutcome α)
    (onDataLoaded : Option (List α → TransformOutcome α)) (page : Nat) :
    FetchPageResult α :=
  if isFetchingRef ∨ ¬enabled then ⟨isFetchingRef, state, none⟩
  else if paginationMode ≠ PaginationMode.classic then ⟨isFetchingRef, state, none⟩
  else
    fetchPage enabled isFetchingRef state paginationMode currentPage pageSize
      filters search sort fetcher onDataLoaded ((page - 1) * pageSize) true

/-- Decisions taken by one run of the query-key effect: the query-key ref
after the run, the in-flight flag after the synchronous part, whether the
state was reset to the empty loading state, and whether (and at which skip)
`fetchPage(skip, true)` was invoked. -/
structure EffectOutcome where
  queryKeyRef : Option QueryKey
  isFetchingRef : Bool
  stateReset : Bool
  fetchInvoked : Bool
  fetchSkip : Nat
  deriving DecidableEq, Repr

/-- Embeds the query-key effect body (lines 576-619). `queryKeyRef` is `none`
while still holding its initial `''` sentinel (a serialized key is never the
empty string). `currentPageRefVal` is the value of `currentPageRef.current`
when the effect body runs. -/
def queryKeyEffect (enabled : Bool) (currentQueryKey : QueryKey)
    (paginationMode : PaginationMode) (currentPageRefVal currentPage pageSize : Nat)
    (queryKeyRef : Option QueryKey) (initialDataUsed : Bool)
    (isFetchingRef : Bool) : EffectOutcome :=
  if ¬enabled then ⟨queryKeyRef, isFetchingRef, false, false, 0⟩
  else
    let isFirstMount := queryKeyRef = none
    let queryKeyChanged := queryKeyRef ≠ some currentQueryKey
    let isClassicMode := paginationMode = PaginationMode.classic
    let pageChanged := isClassicMode ∧ currentPageRefVal ≠ currentPage
    let queryKeyRefNew := if queryKeyChanged then some currentQueryKey else queryKeyRef
    if isFirstMount ∧ initialDataUsed ∧ ¬pageChanged then
      ⟨queryKeyRefNew, isFetchingRef, false, false, 0⟩
    else if isFirstMount ∨ queryKeyChanged ∨ pageChanged then
      ⟨queryKeyRefNew, false,
        decide (queryKeyChanged ∧ ¬isFirstMount ∧ ¬pageChanged), true,
        if isClassicMode then (currentPageRefVal - 1) * pageSize else 0⟩
    else
      ⟨queryKeyRefNew, isFetchingRef, false, false, 0⟩

/-- The effect as it runs after a render: line 414 assigns
`currentPageRef.current = currentPage` during render, before the effect body
reads it, so the effect always observes `currentPageRefVal = currentPage`. -/
def renderQueryKeyEffect (enabled : Bool) (currentQueryKey : QueryKey)
    (paginationMode : PaginationMode) (currentPage pageSize : Nat)
    (queryKeyRef : Option QueryKey) (initialDataUsed : Bool)
    (isFetchingRef : Bool) : EffectOutcome :=
  queryKeyEffect enabled currentQueryKey paginationMode currentPage currentPage
    pageSize queryKeyRef initialDataUsed isFetchingRef

/-- The facade value a render returns (lines 632-645). `Math.ceil(count /
pageSize)` over natural inputs with `pageSize > 0` is the ceiling division
`(count + pageSize - 1) / pageSize`. -/
structure UseDataViewReturn (α : Type) where
  data : List α
  count : Nat
  isSuccess : Bool
  isLoading : Bool
  isFetching : Bool
  error : Option String
  hasMore : Bool
  deriving DecidableEq, Repr

/-- Embeds the hook's return value construction (lines 632-645). -/
def useDataViewInfiniteQueryReturn {α : Type} (state : StoreState α)
    (paginationMode : PaginationMode) (currentPage pageSize : Nat) :
    UseDataViewReturn α :=
  { data := state.data
    count := state.count
    isSuccess := state.isSuccess
    isLoading := state.isLoading
    isFetching := state.isFetching
    error := state.error
    hasMore :=
      if paginationMode = PaginationMode.classic then
        decide (currentPage < (state.count + pageSize - 1) / pageSize)
      else
        decide (state.count > state.data.length) }

/-- Model backend for the accumulation law: a table of `items` served with
Supabase `range(skip, skip + pageSize - 1)` semantics and an exact count. -/
def sliceFetcher {α : Type} (items : List α) (ctx : DataFetchContext) :
    FetcherOutcome α :=
  FetcherOutcome.ok ((items.drop ctx.skip).take ctx.pageSize) items.length

/-- The engine's mutable pieces threaded through successive invocations. -/
structure EngineSnapshot (α : Type) where
  isFetchingRef : Bool
  state : StoreState α
  deriving DecidableEq, Repr

/-- One user-triggered `fetchNextPage` call, threading flag and state. -/
def fetchNextPageStep {α : Type} (enabled : Bool)
    (paginationMode : PaginationMode) (currentPage pageSize : Nat)
    (filters : List (String × List String)) (search : String)
    (sort : Option String) (fetcher : DataFetchContext → FetcherOutcome α)
    (onDataLoaded : Option (List α → TransformOutcome α))
    (snap : EngineSnapshot α) : EngineSnapshot α :=
  let r := fetchNextPage enabled snap.isFetchingRef snap.state paginationMode
    currentPage pageSize filters search sort fetcher onDataLoaded
  ⟨r.isFetchingRef, r.state⟩

/-- `n` successive `fetchNextPage` calls. -/
def iterFetchNextPage {α : Type} (enabled : Bool)
    (paginationMode : PaginationMode) (currentPage pageSize : Nat)
    (filters : List (String × List String)) (search : String)
    (sort : Option String) (fetcher : DataFetchContext → FetcherOutcome α)
    (onDataLoaded : Option (List α → TransformOutcome α)) :
    Nat → EngineSnapshot α → EngineSnapshot α
  | 0, snap => snap
  | n + 1, snap =>
    iterFetchNextPage enabled paginationMode currentPage pageSize filters
      search sort fetcher onDataLoaded n
      (fetchNextPageStep enabled paginationMode currentPage pageSize filters
        search sort fetcher onDataLoaded snap)

/-- A parsed filter map is free of empty-string values. -/
abbrev filtersNoEmptyValue (m : List (String × List String)) : Prop :=
  ∀ kv ∈ m, "" ∉ kv.2

/-- The fetch context `fetchPage` constructs (lines 489-500): classic mode
reads the current page ref, infinite mode derives the page from the skip. -/
def fetchPageCtx (paginationMode : PaginationMode) (currentPage pageSize skip : Nat)
    (filters : List (String × List String)) (search : String)
    (sort : Option String) : DataFetchContext :=
  createFetchContext
    (if paginationMode = PaginationMode.classic then currentPage
     else skip / pageSize + 1)
    pageSize
    (if paginationMode = PaginationMode.classic then (currentPage - 1) * pageSize
     else skip)
    filters search sort

/-- The engine snapshot after `k` rounds of `fetchNextPage` against a
`sliceFetcher` backend, starting from the empty loading state: no data before
the first round, then the first `k` pages accumulated. -/
def sliceState (α : Type) (items : List α) (pageSize k : Nat) : EngineSnapshot α :=
  if k = 0 then ⟨false, emptyLoadingState α⟩
  else
    ⟨false,
      { data := items.take (k * pageSize)
        count := items.length
        isSuccess := true
        isLoading := false
        isFetching := false
        error := none
        hasInitialFetch := true }⟩

/-- Render props of a first render: a plain table query with a `baseQuery`
modifier of identity token 1 and no other callbacks. -/
def callbackPropsA : QueryProps :=
  { tableName := some "projects"
    columns := some "*"
    filters := [("status", ["active"])]
    search := some "abc"
    sort := some "created_at:desc"
    baseQuery := some 1
    customFetcher := none
    onDataLoaded := none }

/-- Render props of the next render: identical to `callbackPropsA` except the
`baseQuery` callback was recreated, so its identity token differs. -/
def callbackPropsB : QueryProps :=
  { callbackPropsA with baseQuery := some 2 }

/-!
Part 3 — theorems about the URL state store.
-/

/-- Deleting a key removes every binding of it, so its lookup yields null. -/
theorem getParamRaw_paramsDelete (params : Params) (key : String) :
    getParamRaw (paramsDelete params key) key = none := by
  have h : (paramsDelete params key).find? (fun kv => kv.1 = key) = none := by
    rw [List.find?_eq_none]
    intro kv hkv
    unfold paramsDelete at hkv
    simp only [List.mem_filter, decide_eq_true_eq] at hkv
    simp [hkv.2]
  unfold getParamRaw
  rw [h]
  rfl

/-- A key that `has` denies is not found. -/
theorem getParamRaw_eq_none_of_not_has (params : Params) (key : String)
    (h : paramsHas params key = false) : getParamRaw params key = none := by
  have h2 : params.find? (fun kv => kv.1 = key) = none := by
    rw [List.find?_eq_none]
    intro kv hkv
    unfold paramsHas at h
    rw [List.any_eq_false] at h
    exact h kv hkv
  unfold getParamRaw
  rw [h2]
  rfl

/-- C2: with the `resetPageOnChange` policy enabled, for every update applied
through `updateUrl` whose `resetPage` option is not explicitly `false` and
whose change set does not include the key `page`, the (namespaced) page
parameter is absent from the resulting URL, so the parsed page defaults back
to 1. -/
theorem updateUrl_deletes_page_param (params : Params) (ns : String)
    (updates : List (String × JSValue)) (optResetPage : Option Bool)
    (hOpt : optResetPage ≠ some false)
    (hNoPage : ∀ kv ∈ updates, kv.1 ≠ "page") :
    getParamRaw (updateUrl params ns true updates optResetPage)
        (getParamKey ns "page") = none ∧
    currentPageFromParam
        (getParamRaw (updateUrl params ns true updates optResetPage)
          (getParamKey ns "page")) = 1 := by
  have hReset : optResetPage.getD true = true := by
    cases optResetPage with
    | none => rfl
    | some b =>
      cases b with
      | false => exact absurd rfl hOpt
      | true => rfl
  have hAny : updates.any (fun kv => kv.1 = "page") = false := by
    rw [List.any_eq_false]
    intro kv hkv
    simp [hNoPage kv hkv]
  have hMain :
      getParamRaw (updateUrl params ns true updates optResetPage)
        (getParamKey ns "page") = none := by
    unfold updateUrl
    simp only [hReset, hAny]
    rw [if_pos (by simp)]
    by_cases hHas :
        paramsHas
          (updates.foldl
            (fun params kv =>
              let paramKey := getParamKey ns kv.1
              if jsValueDeletes kv.2 then paramsDelete params paramKey
              else paramsSet params paramKey (jsValueToString kv.2))
            params)
          (getParamKey ns "page") = true
    · rw [if_pos hHas]
      exact getParamRaw_paramsDelete _ _
    · rw [if_neg hHas]
      exact getParamRaw_eq_none_of_not_has _ _ (by simpa using hHas)
  refine ⟨hMain, ?_⟩
  rw [hMain]
  rfl

/-- C2 witness: a concrete search update deletes a previously set page. -/
theorem updateUrl_deletes_page_param_witness :
    getParamRaw (updateUrl [("page", "3"), ("q", "old")] "" true
        [("q", JSValue.str "abc")] none) (getParamKey "" "page") = none ∧
    currentPageFromParam
        (getParamRaw (updateUrl [("page", "3"), ("q", "old")] "" true
          [("q", JSValue.str "abc")] none) (getParamKey "" "page")) = 1 :=
  updateUrl_deletes_page_param [("page", "3"), ("q", "old")] "" [("q", JSValue.str "abc")]
    none (by decide) (by decide)

/-- C3 counterexample: the claim asserts the parsed limit is ≥ 1 for every
input, but a `limit=-5` parameter parses to the raw value −5: the code never
clamps the limit. -/
theorem currentLimit_not_clamped_counterexample :
    currentLimitFromParam (some "-5") 20 = -5 ∧
    currentLimitFromParam (some "-5") 20 < 1 := by
  constructor <;> decide

/-- C3 amended: the parsed page is 1 for a missing or non-numeric parameter
and `max 1 v` for one parsing to `v` (hence always ≥ 1); the parsed limit is
the configured default when the parameter is missing, non-numeric, or parses
to 0, and is otherwise the raw parsed integer, without any clamping. -/
theorem page_limit_parse_amended :
    (∀ p, 1 ≤ currentPageFromParam p) ∧
    currentPageFromParam none = 1 ∧
    (∀ s, parseIntJS s = none → currentPageFromParam (some s) = 1) ∧
    (∀ s v, parseIntJS s = some v → currentPageFromParam (some s) = max 1 v) ∧
    (∀ d, currentLimitFromParam none d = d) ∧
    (∀ s d, parseIntJS s = none → currentLimitFromParam (some s) d = d) ∧
    (∀ s d, parseIntJS s = some 0 → currentLimitFromParam (some s) d = d) ∧
    (∀ s d v, parseIntJS s = some v → v ≠ 0 →
      currentLimitFromParam (some s) d = v) := by
  have hEmpty : parseIntJS "" = none := rfl
  refine ⟨?_, rfl, ?_, ?_, fun d => rfl, ?_, ?_, ?_⟩
  · intro p
    cases p with
    | none => exact le_refl 1
    | some s =>
      unfold currentPageFromParam
      by_cases hs : s = ""
      · simp [hs]
      · simp only [hs, if_false, if_neg hs]
        exact le_max_left 1 _
  · intro s h
    unfold currentPageFromParam
    by_cases hs : s = ""
    · simp [hs]
    · simp [hs, h]
  · intro s v h
    unfold currentPageFromParam
    by_cases hs : s = ""
    · subst hs
      rw [hEmpty] at h
      exact absurd h (by simp)
    · simp only [hs, if_neg hs, h]
      by_cases hv : v = 0
      · subst hv
        simp
      · simp [hv]
  · intro s d h
    unfold currentLimitFromParam
    by_cases hs : s = ""
    · simp [hs]
    · simp [hs, h]
  · intro s d h
    unfold currentLimitFromParam
    by_cases hs : s = ""
    · simp [hs]
    · simp [hs, h]
  · intro s d v h hv
    unfold currentLimitFromParam
    by_cases hs : s = ""
    · subst hs
      rw [hEmpty] at h
      exact absurd h (by simp)
    · simp [hs, h, hv]

/-- C3 amended witness: `page=-3` parses to 1, `limit=7` parses to 7. -/
theorem page_limit_parse_amended_witness :
    currentPageFromParam (some "-3") = max 1 (-3) ∧
    currentLimitFromParam (some "7") 20 = 7 :=
  ⟨page_limit_parse_amended.2.2.2.1 "-3" (-3) (by decide),
   page_limit_parse_amended.2.2.2.2.2.2.2 "7" 20 7 (by decide) (by decide)⟩

/-- C7: the search compiler applies no predicate when the trimmed search is
blank or no target column is configured; a single target column compiles to
one case-insensitive partial match `ilike '%trimmed%'`; several target
columns compile to the OR of that same match over each column. -/
theorem applySearch_spec (q : Query) (search : String) (searchColumn : Option String)
    (searchColumns : List String) :
    (trimJS search = "" → applySearch q search searchColumn searchColumns = q) ∧
    (trimJS search ≠ "" → targetColumns searchColumn searchColumns = [] →
      applySearch q search searchColumn searchColumns = q) ∧
    (∀ c, trimJS search ≠ "" → targetColumns searchColumn searchColumns = [c] →
      applySearch q search searchColumn searchColumns =
        Query.ilike q c ("%" ++ trimJS search ++ "%")) ∧
    (∀ c d rest, trimJS search ≠ "" →
      targetColumns searchColumn searchColumns = c :: d :: rest →
      applySearch q search searchColumn searchColumns =
        Query.orFilter q
          (String.intercalate ","
            ((c :: d :: rest).map
              (fun col => col ++ ".ilike.%" ++ trimJS search ++ "%")))) := by
  refine ⟨?_, ?_, ?_, ?_⟩
  · intro h
    simp [applySearch, h]
  · intro h hcols
    simp [applySearch, h, hcols]
  · intro c h hcols
    simp [applySearch, h, hcols]
  · intro c d rest h hcols
    simp [applySearch, h, hcols]

/-- C7 witness: `search="abc"` over `["name", "description"]` compiles to an
OR of case-insensitive partial matches on both columns. -/
theorem applySearch_spec_witness :
    applySearch Query.base "abc" none ["name", "description"] =
      Query.orFilter Query.base "name.ilike.%abc%,description.ilike.%abc%" := by
  have h := (applySearch_spec Query.base "abc" none ["name", "description"]).2.2.2
    "name" "description" [] (by decide) (by decide)
  simpa using h

/-- Comma-splitting drops the empty segments, so no split result holds an
empty string. -/
theorem splitFilterParam_no_empty (v : String) : "" ∉ splitFilterParam v := by
  simp [splitFilterParam, List.mem_filter]

/-- Values in a record after an assignment are old values or the new value. -/
theorem mem_recordSet (res : List (String × List String)) (k : String)
    (v : List String) (kv : String × List String) (h : kv ∈ recordSet res k v) :
    kv ∈ res ∨ kv.2 = v := by
  unfold recordSet at h
  by_cases hAny : res.any (fun x => x.1 = k) = true
  · rw [if_pos hAny] at h
    rw [List.mem_map] at h
    obtain ⟨kv', hkv', heq⟩ := h
    by_cases h2 : kv'.1 = k
    · right
      rw [← heq]
      simp [h2]
    · left
      rw [← heq]
      simpa [h2] using hkv'
  · rw [if_neg hAny] at h
    rcases List.mem_append.mp h with h1 | h1
    · exact Or.inl h1
    · right
      simp only [List.mem_singleton] at h1
      rw [h1]

/-- A group's contributed value is either a comma-split of a parameter or the
group's configured `defaultValue`. -/
theorem groupEntry_snd (params : Params) (ns : String) (g : FilterGroup)
    (e : String × List String) (h : groupEntry params ns g = some e) :
    (∃ v, e.2 = splitFilterParam v) ∨ g.defaultValue = some e.2 := by
  unfold groupEntry at h
  split at h
  · split at h
    · left
      rename_i v _ _
      exact ⟨v, by rw [← Option.some_inj.mp h]⟩
    · rw [Option.map_eq_some'] at h
      obtain ⟨dv, hdv, heq⟩ := h
      right
      rw [hdv, ← heq]
  · rw [Option.map_eq_some'] at h
    obtain ⟨dv, hdv, heq⟩ := h
    right
    rw [hdv, ← heq]

/-- Invariant of the `currentFilters` fold: no empty-string value enters the
record as long as configured `defaultValue`s are free of them. -/
theorem currentFilters_fold_no_empty (params : Params) (ns : String) :
    ∀ (fs : List FilterGroup) (acc : List (String × List String)),
      (∀ kv ∈ acc, "" ∉ kv.2) →
      (∀ g ∈ fs, ∀ dv, g.defaultValue = some dv → "" ∉ dv) →
      ∀ kv ∈ fs.foldl
          (fun result filter =>
            match groupEntry params ns filter with
            | some e => recordSet result e.1 e.2
            | none => result)
          acc, "" ∉ kv.2 := by
  intro fs
  induction fs with
  | nil =>
    intro acc hacc _ kv hkv
    exact hacc kv hkv
  | cons g rest ih =>
    intro acc hacc hdef kv hkv
    rw [List.foldl_cons] at hkv
    refine ih _ ?_ (fun g' hg' => hdef g' (List.mem_cons_of_mem g hg')) kv hkv
    intro kv' hkv'
    cases hge : groupEntry params ns g with
    | none =>
      rw [hge] at hkv'
      exact hacc kv' hkv'
    | some e =>
      rw [hge] at hkv'
      rcases mem_recordSet acc e.1 e.2 kv' hkv' with hmem | hval
      · exact hacc kv' hmem
      · rw [hval]
        rcases groupEntry_snd params ns g e hge with ⟨v, hv⟩ | hdv
        · rw [hv]
          exact splitFilterParam_no_empty v
        · exact hdef g (List.mem_cons_self g rest) e.2 hdv

/-- C10 counterexample: the claim says URL filter parsing never produces an
empty-string filter value, but a configured `defaultValue` containing `""` is
passed through verbatim when the parameter is absent. -/
theorem currentFilters_empty_value_counterexample :
    ¬ filtersNoEmptyValue
        (currentFilters (some [⟨"f", some [""]⟩]) [] "") := by
  decide

/-- C10 amended: comma-splitting drops empty segments, so a value parsed from
a present non-empty parameter never contains an empty string, and the whole
parsed map is empty-string-free whenever the configured `defaultValue`s are;
an absent or empty parameter falls back verbatim to the group's
`defaultValue` when one is configured and otherwise contributes no entry. -/
theorem currentFilters_parse_amended :
    (∀ v, "" ∉ splitFilterParam v) ∧
    (∀ fs (params : Params) ns,
      (∀ g ∈ fs, ∀ dv, g.defaultValue = some dv → "" ∉ dv) →
      filtersNoEmptyValue (currentFilters (some fs) params ns)) ∧
    (∀ g (params : Params) ns v,
      getParamRaw params (getParamKey ns g.id) = some v → v ≠ "" →
      currentFilters (some [g]) params ns = [(g.id, splitFilterParam v)]) ∧
    (∀ g (params : Params) ns dv,
      (getParamRaw params (getParamKey ns g.id) = none ∨
        getParamRaw params (getParamKey ns g.id) = some "") →
      g.defaultValue = some dv →
      currentFilters (some [g]) params ns = [(g.id, dv)]) ∧
    (∀ g (params : Params) ns,
      (getParamRaw params (getParamKey ns g.id) = none ∨
        getParamRaw params (getParamKey ns g.id) = some "") →
      g.defaultValue = none →
      currentFilters (some [g]) params ns = []) := by
  refine ⟨splitFilterParam_no_empty, ?_, ?_, ?_, ?_⟩
  · intro fs params ns hdef
    intro kv hkv
    simp only [currentFilters] at hkv
    exact currentFilters_fold_no_empty params ns fs [] (by simp) hdef kv hkv
  · intro g params ns v hp hv
    simp [currentFilters, groupEntry, hp, hv, recordSet]
  · intro g params ns dv hp hdv
    rcases hp with hp | hp <;>
      simp [currentFilters, groupEntry, hp, hdv, recordSet]
  · intro g params ns hp hdv
    rcases hp with hp | hp <;>
      simp [currentFilters, groupEntry, hp, hdv]

/-- C10 amended witness: a present parameter `st=a,b` parses to its split, and
a configured default applies when the parameter is absent. -/
theorem currentFilters_parse_amended_witness :
    currentFilters (some [⟨"st", none⟩]) [("st", "a,b")] "" =
      [("st", splitFilterParam "a,b")] ∧
    currentFilters (some [⟨"cat", some ["x"]⟩]) [] "" = [("cat", ["x"])] :=
  ⟨currentFilters_parse_amended.2.2.1 ⟨"st", none⟩ [("st", "a,b")] "" "a,b"
      (by decide) (by decide),
   currentFilters_parse_amended.2.2.2.1 ⟨"cat", some ["x"]⟩ [] "" ["x"]
      (Or.inl (by decide)) rfl⟩

/-!
Part 4 — theorems about the fetch engine.
-/

/-- Let-free restatement of `fetchPage` for case analysis in proofs. -/
theorem fetchPage_eq {α : Type} (enabled isFetchingRef : Bool) (state : StoreState α)
    (paginationMode : PaginationMode) (currentPage pageSize : Nat)
    (filters : List (String × List String)) (search : String) (sort : Option String)
    (fetcher : DataFetchContext → FetcherOutcome α)
    (onDataLoaded : Option (List α → TransformOutcome α)) (skip : Nat)
    (isReset : Bool) :
    fetchPage enabled isFetchingRef state paginationMode currentPage pageSize
        filters search sort fetcher onDataLoaded skip isReset =
      if ¬enabled then ⟨isFetchingRef, state, none⟩
      else if isFetchingRef then ⟨isFetchingRef, state, none⟩
      else if ¬(paginationMode = PaginationMode.classic) ∧ ¬isReset ∧
          state.hasInitialFetch ∧ state.count ≤ state.data.length then
        ⟨isFetchingRef, state, none⟩
      else
        match resolve fetcher onDataLoaded
            (fetchPageCtx paginationMode currentPage pageSize skip filters search sort) with
        | Resolution.errorResult msg =>
          ⟨false,
            { state with error := some msg, isFetching := false, isLoading := false },
            some (fetchPageCtx paginationMode currentPage pageSize skip filters search sort)⟩
        | Resolution.thrown msg =>
          ⟨false,
            { state with error := some msg, isFetching := false, isLoading := false },
            some (fetchPageCtx paginationMode currentPage pageSize skip filters search sort)⟩
        | Resolution.ok processed count =>
          ⟨false,
            { data := if paginationMode = PaginationMode.classic ∨ isReset then processed
                      else state.data ++ processed
              count := count
              isSuccess := true
              isLoading := false
              isFetching := false
              error := none
              hasInitialFetch := true },
            some (fetchPageCtx paginationMode currentPage pageSize skip filters search sort)⟩ :=
  rfl

/-- C1 counterexample: two renders that differ only in the identity of the
`baseQuery` callback produce the same cache key, and the query-key effect run
at the second render issues no fetch — the key carries no identity counters,
only a boolean flag for the presence of a custom fetcher. -/
theorem queryKey_callback_identity_counterexample :
    callbackPropsA ≠ callbackPropsB ∧
    callbackPropsA.baseQuery ≠ callbackPropsB.baseQuery ∧
    createQueryKey callbackPropsA = createQueryKey callbackPropsB ∧
    (renderQueryKeyEffect true (createQueryKey callbackPropsB)
        PaginationMode.infinite 1 20 (some (createQueryKey callbackPropsA))
        false false).fetchInvoked = false := by
  refine ⟨by decide, by decide, by decide, by decide⟩

/-- C1 amended: the cache key incorporates no callback-identity counters; it
is determined by `tableName`, `columns`, `filters`, `search`, `sort` and the
mere presence of a custom fetcher. Hence any change of callback identities
that keeps those inputs (and custom-fetcher presence) equal leaves the cache
key equal, and the query-key effect of the next render issues no new fetch. -/
theorem queryKey_ignores_callback_identity (p1 p2 : QueryProps)
    (ht : p1.tableName = p2.tableName) (hc : p1.columns = p2.columns)
    (hf : p1.filters = p2.filters) (hs : p1.search = p2.search)
    (ho : p1.sort = p2.sort)
    (hcf : p1.customFetcher.isSome = p2.customFetcher.isSome) :
    createQueryKey p1 = createQueryKey p2 ∧
    ∀ (enabled : Bool) (paginationMode : PaginationMode) (page pageSize : Nat)
      (initialDataUsedFlag isFetchingRef : Bool),
      (renderQueryKeyEffect enabled (createQueryKey p2) paginationMode page
        pageSize (some (createQueryKey p1)) initialDataUsedFlag
        isFetchingRef).fetchInvoked = false := by
  have hkey : createQueryKey p1 = createQueryKey p2 := by
    unfold createQueryKey
    rw [ht, hc, hf, hs, ho, hcf]
  refine ⟨hkey, ?_⟩
  intro enabled paginationMode page pageSize initialDataUsedFlag isFetchingRef
  unfold renderQueryKeyEffect queryKeyEffect
  rw [hkey]
  by_cases hE : enabled = true
  · simp [hE]
  · simp [hE]

/-- C1 amended witness: the two concrete renders of the counterexample
instantiate the amended theorem. -/
theorem queryKey_ignores_callback_identity_witness :
    createQueryKey callbackPropsA = createQueryKey callbackPropsB ∧
    (renderQueryKeyEffect true (createQueryKey callbackPropsB)
        PaginationMode.infinite 1 20 (some (createQueryKey callbackPropsA))
        false false).fetchInvoked = false :=
  ⟨(queryKey_ignores_callback_identity callbackPropsA callbackPropsB rfl rfl rfl
      rfl rfl rfl).1,
   (queryKey_ignores_callback_identity callbackPropsA callbackPropsB rfl rfl rfl
      rfl rfl rfl).2 true PaginationMode.infinite 1 20 false false⟩

/-- C4: a non-empty SSR seed initializes the store with the seed items and
count, `isLoading = false`, `hasInitialFetch = true`, and the first run of the
query-key effect (first mount, no page change is ever observed by it) invokes
no fetch. -/
theorem initialData_skips_first_fetch {α : Type} (seed : InitialData α)
    (hne : seed.data ≠ []) (enabled : Bool) (key : QueryKey)
    (paginationMode : PaginationMode) (page pageSize : Nat) :
    initState (some seed) =
      { data := seed.data
        count := seed.count
        isSuccess := true
        isLoading := false
        isFetching := false
        error := none
        hasInitialFetch := true } ∧
    initialDataUsed (some seed) = true ∧
    (renderQueryKeyEffect enabled key paginationMode page pageSize none
        (initialDataUsed (some seed)) false).fetchInvoked = false := by
  have hlen : seed.data.length > 0 := List.length_pos.mpr hne
  have hused : initialDataUsed (some seed) = true := by
    unfold initialDataUsed
    simp [Nat.pos_iff_ne_zero.mp hlen]
  refine ⟨?_, hused, ?_⟩
  · show (if seed.data.length > 0 then _ else emptyLoadingState α) = _
    rw [if_pos hlen]
  · rw [hused]
    unfold renderQueryKeyEffect queryKeyEffect
    by_cases hE : enabled = true
    · simp [hE]
    · simp [hE]

/-- C4 witness: a five-item seed with count 50 hydrates the state and the
first effect run fetches nothing. -/
theorem initialData_skips_first_fetch_witness :
    initState (some (⟨[1, 2, 3, 4, 5], 50⟩ : InitialData Nat)) =
      { data := [1, 2, 3, 4, 5]
        count := 50
        isSuccess := true
        isLoading := false
        isFetching := false
        error := none
        hasInitialFetch := true } ∧
    initialDataUsed (some (⟨[1, 2, 3, 4, 5], 50⟩ : InitialData Nat)) = true ∧
    (renderQueryKeyEffect true ⟨none, none, [], some "", none, false⟩
        PaginationMode.infinite 1 20 none
        (initialDataUsed (some (⟨[1, 2, 3, 4, 5], 50⟩ : InitialData Nat)))
        false).fetchInvoked = false :=
  initialData_skips_first_fetch ⟨[1, 2, 3, 4, 5], 50⟩ (by decide) true
    ⟨none, none, [], some "", none, false⟩ PaginationMode.infinite 1 20

/-- C5: every failed fetch — an error-result from the fetcher, a throwing
fetcher, or a rejecting transform — records the error message, clears
`isLoading` and `isFetching`, and leaves `data` and `count` exactly as they
were before the fetch. -/
theorem fetchPage_failure_preserves_data {α : Type} (enabled isFetchingRef : Bool)
    (state : StoreState α) (paginationMode : PaginationMode)
    (currentPage pageSize : Nat) (filters : List (String × List String))
    (search : String) (sort : Option String)
    (fetcher : DataFetchContext → FetcherOutcome α)
    (onDataLoaded : Option (List α → TransformOutcome α)) (skip : Nat)
    (isReset : Bool) (ctx : DataFetchContext) (msg : String)
    (hctx : (fetchPage enabled isFetchingRef state paginationMode currentPage
        pageSize filters search sort fetcher onDataLoaded skip
        isReset).issuedCtx = some ctx)
    (hfail : resolve fetcher onDataLoaded ctx = Resolution.errorResult msg ∨
        resolve fetcher onDataLoaded ctx = Resolution.thrown msg) :
    (fetchPage enabled isFetchingRef state paginationMode currentPage pageSize
        filters search sort fetcher onDataLoaded skip isReset).state.error =
        some msg ∧
    (fetchPage enabled isFetchingRef state paginationMode currentPage pageSize
        filters search sort fetcher onDataLoaded skip isReset).state.isLoading =
        false ∧
    (fetchPage enabled isFetchingRef state paginationMode currentPage pageSize
        filters search sort fetcher onDataLoaded skip isReset).state.isFetching =
        false ∧
    (fetchPage enabled isFetchingRef state paginationMode currentPage pageSize
        filters search sort fetcher onDataLoaded skip isReset).state.data =
        state.data ∧
    (fetchPage enabled isFetchingRef state paginationMode currentPage pageSize
        filters search sort fetcher onDataLoaded skip isReset).state.count =
        state.count := by
  rw [fetchPage_eq] at hctx ⊢
  split at hctx
  · exact absurd hctx (by simp)
  · split at hctx
    · exact absurd hctx (by simp)
    · split at hctx
      · exact absurd hctx (by simp)
      · rename_i h1 h2 h3
        rw [if_neg h1, if_neg h2, if_neg h3]
        cases hres : resolve fetcher onDataLoaded
            (fetchPageCtx paginationMode currentPage pageSize skip filters
              search sort) with
        | ok processed count =>
          rw [hres] at hctx
          simp only [Option.some_inj] at hctx
          subst hctx
          rcases hfail with hf | hf <;> rw [hres] at hf <;>
            exact absurd hf (by simp)
        | errorResult m =>
          rw [hres] at hctx
          simp only [Option.some_inj] at hctx
          subst hctx
          rcases hfail with hf | hf
          · rw [hres] at hf
            injection hf with hm
            subst hm
            simp
          · rw [hres] at hf
            exact absurd hf (by simp)
        | thrown m =>
          rw [hres] at hctx
          simp only [Option.some_inj] at hctx
          subst hctx
          rcases hfail with hf | hf
          · rw [hres] at hf
            exact absurd hf (by simp)
          · rw [hres] at hf
            injection hf with hm
            subst hm
            simp

/-- C5 witness: a fetcher that reports an error while two items are displayed
leaves the two items and the count in place and records the error. -/
theorem fetchPage_failure_preserves_data_witness :
    (fetchPage true false
        (⟨[1, 2], 5, true, false, false, none, true⟩ : StoreState Nat)
        PaginationMode.infinite 1 20 [] "" none
        (fun _ => FetcherOutcome.errorField "boom") none 2 false).state.error =
        some "boom" ∧
    (fetchPage true false
        (⟨[1, 2], 5, true, false, false, none, true⟩ : StoreState Nat)
        PaginationMode.infinite 1 20 [] "" none
        (fun _ => FetcherOutcome.errorField "boom") none 2 false).state.isLoading =
        false ∧
    (fetchPage true false
        (⟨[1, 2], 5, true, false, false, none, true⟩ : StoreState Nat)
        PaginationMode.infinite 1 20 [] "" none
        (fun _ => FetcherOutcome.errorField "boom") none 2 false).state.isFetching =
        false ∧
    (fetchPage true false
        (⟨[1, 2], 5, true, false, false, none, true⟩ : StoreState Nat)
        PaginationMode.infinite 1 20 [] "" none
        (fun _ => FetcherOutcome.errorField "boom") none 2 false).state.data =
        [1, 2] ∧
    (fetchPage true false
        (⟨[1, 2], 5, true, false, false, none, true⟩ : StoreState Nat)
        PaginationMode.infinite 1 20 [] "" none
        (fun _ => FetcherOutcome.errorField "boom") none 2 false).state.count =
        5 :=
  fetchPage_failure_preserves_data true false
    ⟨[1, 2], 5, true, false, false, none, true⟩ PaginationMode.infinite 1 20 []
    "" none (fun _ => FetcherOutcome.errorField "boom") none 2 false
    ⟨1, 20, 2, [], "", none⟩ "boom" (by decide) (Or.inl (by decide))

/-- C9: every successful fetch leaves the store with `error = none`,
`isSuccess = true`, `hasInitialFetch = true` and both loading flags cleared —
in particular an earlier recorded error is wiped by the next success. -/
theorem fetchPage_success_state {α : Type} (enabled isFetchingRef : Bool)
    (state : StoreState α) (paginationMode : PaginationMode)
    (currentPage pageSize : Nat) (filters : List (String × List String))
    (search : String) (sort : Option String)
    (fetcher : DataFetchContext → FetcherOutcome α)
    (onDataLoaded : Option (List α → TransformOutcome α)) (skip : Nat)
    (isReset : Bool) (ctx : DataFetchContext) (processed : List α) (count : Nat)
    (hctx : (fetchPage enabled isFetchingRef state paginationMode currentPage
        pageSize filters search sort fetcher onDataLoaded skip
        isReset).issuedCtx = some ctx)
    (hok : resolve fetcher onDataLoaded ctx = Resolution.ok processed count) :
    (fetchPage enabled isFetchingRef state paginationMode currentPage pageSize
        filters search sort fetcher onDataLoaded skip isReset).state.error =
        none ∧
    (fetchPage enabled isFetchingRef state paginationMode currentPage pageSize
        filters search sort fetcher onDataLoaded skip isReset).state.isSuccess =
        true ∧
    (fetchPage enabled isFetchingRef state paginationMode currentPage pageSize
        filters search sort fetcher onDataLoaded skip
        isReset).state.hasInitialFetch = true ∧
    (fetchPage enabled isFetchingRef state paginationMode currentPage pageSize
        filters search sort fetcher onDataLoaded skip isReset).state.isLoading =
        false ∧
    (fetchPage enabled isFetchingRef state paginationMode currentPage pageSize
        filters search sort fetcher onDataLoaded skip isReset).state.isFetching =
        false := by
  rw [fetchPage_eq] at hctx ⊢
  split at hctx
  · exact absurd hctx (by simp)
  · split at hctx
    · exact absurd hctx (by simp)
    · split at hctx
      · exact absurd hctx (by simp)
      · rename_i h1 h2 h3
        rw [if_neg h1, if_neg h2, if_neg h3]
        cases hres : resolve fetcher onDataLoaded
            (fetchPageCtx paginationMode currentPage pageSize skip filters
              search sort) with
        | ok p c =>
          simp
        | errorResult m =>
          rw [hres] at hctx
          simp only [Option.some_inj] at hctx
          subst hctx
          rw [hres] at hok
          exact absurd hok (by simp)
        | thrown m =>
          rw [hres] at hctx
          simp only [Option.some_inj] at hctx
          subst hctx
          rw [hres] at hok
          exact absurd hok (by simp)

/-- C9 witness: a successful refetch clears a previously recorded error. -/
theorem fetchPage_success_state_witness :
    (fetchPage true false
        (⟨[1], 3, false, false, false, some "old", true⟩ : StoreState Nat)
        PaginationMode.infinite 1 20 [] "" none
        (fun _ => FetcherOutcome.ok [7, 8] 9) none 1 false).state.error = none ∧
    (fetchPage true false
        (⟨[1], 3, false, false, false, some "old", true⟩ : StoreState Nat)
        PaginationMode.infinite 1 20 [] "" none
        (fun _ => FetcherOutcome.ok [7, 8] 9) none 1 false).state.isSuccess =
        true ∧
    (fetchPage true false
        (⟨[1], 3, false, false, false, some "old", true⟩ : StoreState Nat)
        PaginationMode.infinite 1 20 [] "" none
        (fun _ => FetcherOutcome.ok [7, 8] 9) none 1 false).state.hasInitialFetch =
        true ∧
    (fetchPage true false
        (⟨[1], 3, false, false, false, some "old", true⟩ : StoreState Nat)
        PaginationMode.infinite 1 20 [] "" none
        (fun _ => FetcherOutcome.ok [7, 8] 9) none 1 false).state.isLoading =
        false ∧
    (fetchPage true false
        (⟨[1], 3, false, false, false, some "old", true⟩ : StoreState Nat)
        PaginationMode.infinite 1 20 [] "" none
        (fun _ => FetcherOutcome.ok [7, 8] 9) none 1 false).state.isFetching =
        false :=
  fetchPage_success_state true false
    ⟨[1], 3, false, false, false, some "old", true⟩ PaginationMode.infinite 1 20
    [] "" none (fun _ => FetcherOutcome.ok [7, 8] 9) none 1 false
    ⟨1, 20, 1, [], "", none⟩ [7, 8] 9 (by decide) (by decide)

/-- C8: the facade's `hasMore` equals `page < ⌈count / limit⌉` under classic
pagination and `count > data.length` under the accumulating strategies, for
every store state. -/
theorem hasMore_spec {α : Type} (state : StoreState α)
    (paginationMode : PaginationMode) (currentPage pageSize : Nat)
    (hP : 0 < pageSize) :
    ((useDataViewInfiniteQueryReturn state paginationMode currentPage
        pageSize).hasMore = true ↔
      (if paginationMode = PaginationMode.classic then
        ((currentPage : ℤ) < ⌈(state.count : ℚ) / (pageSize : ℚ)⌉)
      else (state.data.length < state.count))) := by
  unfold useDataViewInfiniteQueryReturn
  by_cases hm : paginationMode = PaginationMode.classic
  · rw [if_pos hm]
    simp only [if_pos hm, decide_eq_true_eq]
    have h1 : currentPage < (state.count + pageSize - 1) / pageSize ↔
        currentPage * pageSize < state.count := by
      rw [Nat.lt_iff_add_one_le, Nat.le_div_iff_mul_le hP, add_mul, one_mul]
      omega
    have hPQ : (0 : ℚ) < (pageSize : ℚ) := by exact_mod_cast hP
    rw [h1, Int.lt_ceil, lt_div_iff₀ hPQ]
    constructor
    · intro h
      exact_mod_cast h
    · intro h
      exact_mod_cast h
  · rw [if_neg hm]
    simp only [if_neg hm, decide_eq_true_eq]

/-- C8 witness: classic mode with five records and page size two has more
pages after page one. -/
theorem hasMore_spec_witness :
    0 < 2 ∧
    ((useDataViewInfiniteQueryReturn
        (⟨[], 5, true, false, false, none, true⟩ : StoreState Nat)
        PaginationMode.classic 1 2).hasMore = true ↔
      (if PaginationMode.classic = PaginationMode.classic then
        (((1 : Nat) : ℤ) < ⌈((5 : Nat) : ℚ) / ((2 : Nat) : ℚ)⌉)
      else ((([] : List Nat).length : Nat) < 5))) :=
  ⟨by decide,
   hasMore_spec (⟨[], 5, true, false, false, none, true⟩ : StoreState Nat)
     PaginationMode.classic 1 2 (by decide)⟩

/-- One `fetchNextPage` round against a `sliceFetcher` backend advances the
accumulated prefix by one page, or is a no-op once the whole list is held. -/
theorem sliceFetcher_step {α : Type} (items : List α) (currentPage pageSize : Nat)
    (filters : List (String × List String)) (search : String)
    (sort : Option String) (k : Nat) :
    fetchNextPageStep true PaginationMode.infinite currentPage pageSize filters
        search sort (sliceFetcher items) none (sliceState α items pageSize k) =
      sliceState α items pageSize (k + 1) := by
  rcases Nat.eq_zero_or_pos k with hk | hk
  · subst hk
    simp only [sliceState, if_pos rfl, Nat.zero_add, if_neg Nat.one_ne_zero]
    simp [fetchNextPageStep, fetchNextPage, fetchPage_eq, emptyLoadingState,
      resolve, sliceFetcher, fetchPageCtx, createFetchContext]
  · have hk0 : k ≠ 0 := Nat.pos_iff_ne_zero.mp hk
    have hL : sliceState α items pageSize k =
        ⟨false,
          ⟨items.take (k * pageSize), items.length, true, false, false, none,
            true⟩⟩ := by
      rw [sliceState, if_neg hk0]
    have hR : sliceState α items pageSize (k + 1) =
        ⟨false,
          ⟨items.take ((k + 1) * pageSize), items.length, true, false, false,
            none, true⟩⟩ := by
      rw [sliceState, if_neg (Nat.succ_ne_zero k)]
    rw [hL, hR]
    by_cases hfull : items.length ≤ k * pageSize
    · have htake : items.take (k * pageSize) = items :=
        List.take_of_length_le hfull
      have htake1 : items.take ((k + 1) * pageSize) = items :=
        List.take_of_length_le
          (le_trans hfull (Nat.mul_le_mul_right _ (Nat.le_succ k)))
      simp [fetchNextPageStep, fetchNextPage, fetchPage_eq, htake, htake1,
        hfull]
    · have hlt : k * pageSize < items.length := Nat.lt_of_not_le hfull
      have hlen : (items.take (k * pageSize)).length = k * pageSize := by
        rw [List.length_take]
        omega
      simp only [fetchNextPageStep, fetchNextPage, fetchPage_eq, hlen]
      rw [if_neg (by simp), if_neg (by simp), if_neg (by simp),
        if_neg (by simp)]
      rw [if_neg (by
        intro h
        have := h.2.2.2
        omega)]
      have hres :
          resolve (sliceFetcher items) none
            (fetchPageCtx PaginationMode.infinite currentPage pageSize
              (k * pageSize) filters search sort) =
          Resolution.ok ((items.drop (k * pageSize)).take pageSize)
            items.length := by
        simp [resolve, sliceFetcher, fetchPageCtx, createFetchContext]
      rw [hres]
      simp only [if_neg (by simp : ¬(PaginationMode.infinite =
        PaginationMode.classic ∨ false = true))]
      rw [← List.take_add items (k * pageSize) pageSize, ← Nat.succ_mul]

/-- Iterating `fetchNextPage` against a `sliceFetcher` backend walks the
`sliceState` sequence. -/
theorem iter_sliceState {α : Type} (items : List α) (currentPage pageSize : Nat)
    (filters : List (String × List String)) (search : String)
    (sort : Option String) :
    ∀ (n k : Nat),
      iterFetchNextPage true PaginationMode.infinite currentPage pageSize
          filters search sort (sliceFetcher items) none n
          (sliceState α items pageSize k) =
        sliceState α items pageSize (k + n) := by
  intro n
  induction n with
  | zero =>
    intro k
    rfl
  | succ m ih =>
    intro k
    show iterFetchNextPage true PaginationMode.infinite currentPage pageSize
        filters search sort (sliceFetcher items) none m
        (fetchNextPageStep true PaginationMode.infinite currentPage pageSize
          filters search sort (sliceFetcher items) none
          (sliceState α items pageSize k)) =
      sliceState α items pageSize (k + (m + 1))
    rw [sliceFetcher_step, ih]
    have : k + 1 + m = k + (m + 1) := by omega
    rw [this]

/-- C6 counterexample: after a failed initial load the store holds
`hasInitialFetch = false` with `data = []` and `count = 0` and the in-flight
flag is clear (exactly the state `fetchPage` leaves on an initial-load
error); a `fetchNextPage` call from that state issues a fetch even though
`count > data.length` is false, so the claimed guard "proceeds only when
`count > data.length`" does not hold. -/
theorem fetchNextPage_guard_counterexample :
    ((fetchNextPage true false
        (⟨[], 0, false, false, false, some "network error", false⟩ :
          StoreState Nat)
        PaginationMode.infinite 1 20 [] "" none (sliceFetcher [1, 2, 3])
        none).issuedCtx).isSome = true ∧
    ¬ ((⟨[], 0, false, false, false, some "network error", false⟩ :
          StoreState Nat).count >
        (⟨[], 0, false, false, false, some "network error", false⟩ :
          StoreState Nat).data.length) := by
  refine ⟨by decide, by decide⟩

/-- C6 amended: `fetchNextPage` is a no-op under classic pagination and while
a fetch is in flight; in the accumulating mode it proceeds only when no
initial fetch has completed or `count > data.length`, it fetches with skip
equal to the accumulated `data.length`, on success it appends the returned
page to `data`, and against a backend serving a fixed list with exact counts,
`n` calls from the empty state accumulate `min (n·pageSize) count` items. -/
theorem fetchNextPage_spec {α : Type} (enabled isFetchingRef : Bool)
    (state : StoreState α) (paginationMode : PaginationMode)
    (currentPage pageSize : Nat) (filters : List (String × List String))
    (search : String) (sort : Option String)
    (fetcher : DataFetchContext → FetcherOutcome α)
    (onDataLoaded : Option (List α → TransformOutcome α)) :
    (paginationMode = PaginationMode.classic →
      fetchNextPage enabled isFetchingRef state paginationMode currentPage
        pageSize filters search sort fetcher onDataLoaded =
        ⟨isFetchingRef, state, none⟩) ∧
    (isFetchingRef = true →
      fetchNextPage enabled isFetchingRef state paginationMode currentPage
        pageSize filters search sort fetcher onDataLoaded =
        ⟨isFetchingRef, state, none⟩) ∧
    (∀ ctx,
      (fetchNextPage enabled isFetchingRef state paginationMode currentPage
        pageSize filters search sort fetcher onDataLoaded).issuedCtx =
        some ctx →
      (state.hasInitialFetch = false ∨ state.data.length < state.count) ∧
      ctx.skip = state.data.length) ∧
    (∀ ctx processed count,
      (fetchNextPage enabled isFetchingRef state paginationMode currentPage
        pageSize filters search sort fetcher onDataLoaded).issuedCtx =
        some ctx →
      resolve fetcher onDataLoaded ctx = Resolution.ok processed count →
      (fetchNextPage enabled isFetchingRef state paginationMode currentPage
        pageSize filters search sort fetcher onDataLoaded).state.data =
        state.data ++ processed) ∧
    (∀ (items : List α) (n : Nat),
      (iterFetchNextPage true PaginationMode.infinite currentPage pageSize
        filters search sort (sliceFetcher items) none n
        ⟨false, emptyLoadingState α⟩).state.data.length =
        min (n * pageSize) items.length) := by
  refine ⟨?_, ?_, ?_, ?_, ?_⟩
  · intro hm
    unfold fetchNextPage
    by_cases h1 : isFetchingRef = true ∨ ¬enabled = true
    · rw [if_pos h1]
    · rw [if_neg h1, if_pos hm]
  · intro hf
    unfold fetchNextPage
    rw [if_pos (Or.inl hf)]
  · intro ctx hctx
    unfold fetchNextPage at hctx
    split at hctx
    · exact absurd hctx (by simp)
    · split at hctx
      · exact absurd hctx (by simp)
      · rename_i hflag hm
        rw [fetchPage_eq] at hctx
        split at hctx
        · exact absurd hctx (by simp)
        · split at hctx
          · exact absurd hctx (by simp)
          · split at hctx
            · exact absurd hctx (by simp)
            · rename_i hE hF hG
              split at hctx
              all_goals
                simp only [Option.some_inj] at hctx
                subst hctx
                constructor
              all_goals
                first
                | (cases hInit : state.hasInitialFetch with
                   | false => exact Or.inl rfl
                   | true =>
                     right
                     by_contra hlt
                     exact hG ⟨hm, by simp, hInit, by omega⟩)
                | (show (if paginationMode = PaginationMode.classic then
                        (currentPage - 1) * pageSize
                      else state.data.length) = state.data.length
                   rw [if_neg hm])
  · intro ctx processed count hctx hok
    unfold fetchNextPage at hctx ⊢
    split at hctx
    · exact absurd hctx (by simp)
    · split at hctx
      · exact absurd hctx (by simp)
      · rename_i hflag hm
        rw [if_neg hflag, if_neg hm]
        rw [fetchPage_eq] at hctx ⊢
        split at hctx
        · exact absurd hctx (by simp)
        · split at hctx
          · exact absurd hctx (by simp)
          · split at hctx
            · exact absurd hctx (by simp)
            · rename_i hE hF hG
              rw [if_neg hE, if_neg hF, if_neg hG]
              cases hres : resolve fetcher onDataLoaded
                  (fetchPageCtx paginationMode currentPage pageSize
                    state.data.length filters search sort) with
              | ok p c =>
                rw [hres] at hctx
                simp only [Option.some_inj] at hctx
                subst hctx
                rw [hres] at hok
                injection hok with hp hc
                subst hp
                simp [if_neg hm]
              | errorResult m =>
                rw [hres] at hctx
                simp only [Option.some_inj] at hctx
                subst hctx
                rw [hres] at hok
                exact absurd hok (by simp)
              | thrown m =>
                rw [hres] at hctx
                simp only [Option.some_inj] at hctx
                subst hctx
                rw [hres] at hok
                exact absurd hok (by simp)
  · intro items n
    have h0 : (⟨false, emptyLoadingState α⟩ : EngineSnapshot α) =
        sliceState α items pageSize 0 := by
      rw [sliceState, if_pos rfl]
    rw [h0, iter_sliceState]
    cases n with
    | zero => simp [sliceState, emptyLoadingState]
    | succ m =>
      rw [Nat.zero_add, sliceState, if_neg (Nat.succ_ne_zero m)]
      simp [List.length_take]

/-- C6 amended witness: three rounds against a five-item backend with page
size two accumulate `min 6 5 = 5` items, and a concrete classic-mode call is
a no-op. -/
theorem fetchNextPage_spec_witness :
    (fetchNextPage true false
        (⟨[1, 2], 5, true, false, false, none, true⟩ : StoreState Nat)
        PaginationMode.classic 1 2 [] "" none (sliceFetcher [1, 2, 3, 4, 5])
        none) =
      ⟨false, ⟨[1, 2], 5, true, false, false, none, true⟩, none⟩ ∧
    (iterFetchNextPage true PaginationMode.infinite 1 2 [] "" none
        (sliceFetcher [10, 20, 30, 40, 50]) none 3
        ⟨false, emptyLoadingState Nat⟩).state.data.length = min (3 * 2) 5 :=
  ⟨(fetchNextPage_spec true false
      (⟨[1, 2], 5, true, false, false, none, true⟩ : StoreState Nat)
      PaginationMode.classic 1 2 [] "" none (sliceFetcher [1, 2, 3, 4, 5])
      none).1 rfl,
   (fetchNextPage_spec true false
      (⟨[1, 2], 5, true, false, false, none, true⟩ : StoreState Nat)
      PaginationMode.infinite 1 2 [] "" none (sliceFetcher [1, 2, 3, 4, 5])
      none).2.2.2.2 [10, 20, 30, 40, 50] 3⟩

end DataView
